import Mathlib

/-!
Shallow embedding of `fleshfetch.py`, an incremental clicker game.

We model the persistent game state, the upgrade catalog, the achievement
document, and the event handlers of the `FleshClicker` window:
`on_click`, `on_timer_tick`, `on_buy_upgrade_clicked`, `unlock_achievement`,
together with the persistence helpers `load_json` and `load_legacy_counter`
and the flat legacy counter mirror written by the `flesh` property setter.

Python floats are modelled as rationals; Python dicts are modelled as
association lists preserving insertion order (assignment replaces the
binding in place if present, else appends).  File-system effects are made
explicit: the counter value written by the setter is returned alongside the
new state, the achievement-document writes performed by
`unlock_achievement` are counted, and `load_json` reads abstract file
contents (missing / unparseable / parsed document) and reports the
migration write it attempts.
-/

namespace FleshFetch

/-- Python `d.get(k)` on a dict modelled as an association list:
the first binding for the key wins. -/
def dictGet {α : Type} : List (String × α) → String → Option α
  | [], _ => none
  | (k', v) :: rest, k => if k' = k then some v else dictGet rest k

/-- Python `d[k] = v` on a dict modelled as an association list:
replace the binding in place if present, else append at the end. -/
def dictSet {α : Type} : List (String × α) → String → α → List (String × α)
  | [], k, v => [(k, v)]
  | (k', v') :: rest, k, v =>
      if k' = k then (k, v) :: rest else (k', v') :: dictSet rest k v

/-- One entry of the upgrade catalog (`BASE_UPGRADES` values). -/
structure Upgrade where
  name : String
  desc : String
  type : String
  category : String
  base_cost : ℚ
  cost_mult : ℚ
  fps : ℚ
  fpc : ℚ
deriving DecidableEq

/-- The persistent game-state document (`DEFAULT_STATE` shape). -/
structure GameState where
  flesh : ℚ
  flesh_per_click : ℚ
  upgrades_owned : List (String × Nat)
  total_clicks : Nat
deriving DecidableEq

/-- One entry of the achievement document. -/
structure Achievement where
  name : String
  desc : String
  unlocked : Bool
deriving DecidableEq

/-- The built-in upgrade catalog `BASE_UPGRADES`. -/
def BASE_UPGRADES : List (String × Upgrade) :=
  [ ("bigger_clicks",
      { name := "Bigger Clicks", desc := "+1 flesh per click.",
        type := "click", category := "click",
        base_cost := 10, cost_mult := 1.15, fps := 0, fpc := 1 }),
    ("auto_clicker_1",
      { name := "Autoclicker Mk.I", desc := "+1 flesh/sec per unit.",
        type := "auto", category := "auto",
        base_cost := 25, cost_mult := 1.15, fps := 1, fpc := 0 }),
    ("auto_clicker_2",
      { name := "Autoclicker Mk.II", desc := "+2 flesh/sec per unit.",
        type := "auto", category := "auto",
        base_cost := 100, cost_mult := 1.18, fps := 2, fpc := 0 }),
    ("crit_click",
      { name := "Critical Clicks", desc := "Chance for double flesh per click.",
        type := "click", category := "click",
        base_cost := 200, cost_mult := 1.2, fps := 0, fpc := 0 }) ]

/-- The default game state `DEFAULT_STATE`. -/
def DEFAULT_STATE : GameState :=
  { flesh := 0, flesh_per_click := 1, upgrades_owned := [], total_clicks := 0 }

/-- The default achievement document `DEFAULT_ACHIEVEMENTS`. -/
def DEFAULT_ACHIEVEMENTS : List (String × Achievement) :=
  [ ("first_click", { name := "First Click", desc := "Click the flesh at least once.", unlocked := false }),
    ("ten_clicks", { name := "Ten Clicks", desc := "Click the flesh 10 times.", unlocked := false }),
    ("hundred_clicks", { name := "Hundred Clicks", desc := "Click the flesh 100 times.", unlocked := false }),
    ("first_upgrade", { name := "First Upgrade", desc := "Buy your first upgrade.", unlocked := false }),
    ("five_upgrades", { name := "Upgrade Collector", desc := "Own at least 5 upgrades total.", unlocked := false }),
    ("hundred_flesh", { name := "Flesh Pile", desc := "Reach 100 flesh.", unlocked := false }),
    ("thousand_flesh", { name := "Flesh Mountain", desc := "Reach 1000 flesh.", unlocked := false }) ]

/-- Python `int(x)` applied to a float value: truncation toward zero. -/
def pyInt (q : ℚ) : ℤ :=
  if 0 ≤ q then ⌊q⌋ else -⌊-q⌋

/-- `save_legacy_counter(value)`: the integer `int(value)` written into the
flat counter file (the write itself is best-effort in the source; we model
the value written). -/
def save_legacy_counter (value : ℚ) : ℤ :=
  pyInt value

/-- The `flesh` property setter: stores `max(0.0, float(value))`, persists
the state document, and mirrors the clamped value into the flat legacy
counter file.  Returns the new state together with the integer written to
the counter file. -/
def setFlesh (s : GameState) (value : ℚ) : GameState × ℤ :=
  ({ s with flesh := max 0 value }, save_legacy_counter (max 0 value))

/-- `add_flesh(amount)`: `self.flesh = self.flesh + amount` through the
clamping setter. -/
def add_flesh (s : GameState) (amount : ℚ) : GameState × ℤ :=
  setFlesh s (s.flesh + amount)

/-- `get_upgrade_count(uid)`: `int(self.state["upgrades_owned"].get(uid, 0))`. -/
def get_upgrade_count (s : GameState) (uid : String) : Nat :=
  (dictGet s.upgrades_owned uid).getD 0

/-- `set_upgrade_count(uid, value)` (also persists the state document). -/
def set_upgrade_count (s : GameState) (uid : String) (value : Nat) : GameState :=
  { s with upgrades_owned := dictSet s.upgrades_owned uid value }

/-- `total_upgrades_owned()`: sum of all owned counts. -/
def total_upgrades_owned (s : GameState) : Nat :=
  (s.upgrades_owned.map (fun p => p.2)).sum

/-- `compute_fps()`: sum of `fps * count` over `"auto"`-type upgrades. -/
def compute_fps (upgrades : List (String × Upgrade)) (s : GameState) : ℚ :=
  upgrades.foldl
    (fun acc p =>
      if p.2.type = "auto" then acc + p.2.fps * (get_upgrade_count s p.1 : ℚ) else acc)
    0

/-- `compute_extra_fpc()`: sum of `fpc * count` over `"click"`-type upgrades. -/
def compute_extra_fpc (upgrades : List (String × Upgrade)) (s : GameState) : ℚ :=
  upgrades.foldl
    (fun acc p =>
      if p.2.type = "click" then acc + p.2.fpc * (get_upgrade_count s p.1 : ℚ) else acc)
    0

/-- `effective_fpc()`: base `flesh_per_click` plus the extra click yield. -/
def effective_fpc (upgrades : List (String × Upgrade)) (s : GameState) : ℚ :=
  s.flesh_per_click + compute_extra_fpc upgrades s

/-- `get_upgrade_cost(uid, owned)`: `base_cost * cost_mult ** owned`.
The source indexes `self.upgrades[uid]` directly, raising `KeyError` when
the id is absent; we model the fallible lookup with `Option`. -/
def get_upgrade_cost (upgrades : List (String × Upgrade)) (uid : String) (owned : Nat) :
    Option ℚ :=
  (dictGet upgrades uid).map (fun u => u.base_cost * u.cost_mult ^ owned)

/-- `unlock_achievement(key)`: no-op when the key is unknown or already
unlocked; otherwise set `unlocked = True` and persist the achievement
document.  The second component counts the persisted writes performed
(0 or 1). -/
def unlock_achievement (ach : List (String × Achievement)) (key : String) :
    List (String × Achievement) × Nat :=
  match dictGet ach key with
  | none => (ach, 0)
  | some a =>
      if a.unlocked then (ach, 0)
      else (dictSet ach key { a with unlocked := true }, 1)

/-- `on_buy_upgrade_clicked(uid)`: read the owned count, look the upgrade up
in the catalog (a `KeyError` — modelled as `.error` — when absent), compute
the cost; with insufficient flesh return with no state change; otherwise
subtract the cost through the clamping setter, increment the owned count,
and run the two upgrade-count achievement checks. -/
def on_buy_upgrade_clicked (upgrades : List (String × Upgrade)) (s : GameState)
    (ach : List (String × Achievement)) (uid : String) :
    Except String (GameState × List (String × Achievement)) :=
  let owned := get_upgrade_count s uid
  match dictGet upgrades uid with
  | none => .error ("KeyError: " ++ uid)
  | some u =>
      let cost := u.base_cost * u.cost_mult ^ owned
      if s.flesh < cost then .ok (s, ach)
      else
        let s1 := (add_flesh s (-cost)).1
        let s2 := set_upgrade_count s1 uid (owned + 1)
        let total := total_upgrades_owned s2
        let ach1 := if 1 ≤ total then (unlock_achievement ach "first_upgrade").1 else ach
        let ach2 := if 5 ≤ total then (unlock_achievement ach1 "five_upgrades").1 else ach1
        .ok (s2, ach2)

/-- `on_click(...)` with the random roll `r` (the value of
`random.random()`) passed explicitly: compute the effective per-click
yield, roll the critical hit (`crit_chance = 0.05 * count` when the
`crit_click` count is positive, else `0.0`; on success the yield doubles),
add the yield through the clamping setter, increment `total_clicks`,
persist, and run the click-count and flesh-threshold achievement checks. -/
def on_click (upgrades : List (String × Upgrade)) (s : GameState)
    (ach : List (String × Achievement)) (r : ℚ) :
    GameState × List (String × Achievement) :=
  let fpc0 := effective_fpc upgrades s
  let critCount := get_upgrade_count s "crit_click"
  let crit_chance : ℚ := if 0 < critCount then (5 / 100) * (critCount : ℚ) else 0
  let fpc := if r < crit_chance then fpc0 * 2 else fpc0
  let s1 := (add_flesh s fpc).1
  let s2 := { s1 with total_clicks := s1.total_clicks + 1 }
  let ach1 := if 1 ≤ s2.total_clicks then (unlock_achievement ach "first_click").1 else ach
  let ach2 := if 10 ≤ s2.total_clicks then (unlock_achievement ach1 "ten_clicks").1 else ach1
  let ach3 := if 100 ≤ s2.total_clicks then (unlock_achievement ach2 "hundred_clicks").1 else ach2
  let ach4 := if (100 : ℚ) ≤ s2.flesh then (unlock_achievement ach3 "hundred_flesh").1 else ach3
  let ach5 := if (1000 : ℚ) ≤ s2.flesh then (unlock_achievement ach4 "thousand_flesh").1 else ach4
  (s2, ach5)

/-- `on_timer_tick()`: add `compute_fps()` through the clamping setter when
it is positive; the achievement document is not consulted or modified. -/
def on_timer_tick (upgrades : List (String × Upgrade)) (s : GameState) : GameState :=
  let fps := compute_fps upgrades s
  if 0 < fps then (add_flesh s fps).1 else s

/-- One user-visible core operation. -/
inductive Op where
  | click (r : ℚ)
  | tick
  | buy (uid : String)
deriving DecidableEq

/-- Apply one operation to the pair (game state, achievement document).
A purchase whose cost lookup raises `KeyError` aborts the handler before
any mutation, so the pair is returned unchanged in that case. -/
def applyOp (upgrades : List (String × Upgrade))
    (p : GameState × List (String × Achievement)) :
    Op → GameState × List (String × Achievement)
  | .click r => on_click upgrades p.1 p.2 r
  | .tick => (on_timer_tick upgrades p.1, p.2)
  | .buy uid =>
      match on_buy_upgrade_clicked upgrades p.1 p.2 uid with
      | .ok q => q
      | .error _ => p

/-- Apply a sequence of operations left to right. -/
def applyOps (upgrades : List (String × Upgrade)) :
    List Op → GameState × List (String × Achievement) →
    GameState × List (String × Achievement)
  | [], p => p
  | op :: rest, p => applyOps upgrades rest (applyOp upgrades p op)

/-- Abstract content of a file as seen by a loader: the path may be
missing, present but unparseable, or present with a parsed document. -/
inductive FileContent (α : Type) where
  | missing
  | corrupt
  | valid (data : α)
deriving DecidableEq

/-- `load_json(path, default, legacy_path)`: parse the current path when it
exists (falling back to the default on a parse failure); otherwise parse
the legacy path, migrating its content into the current path (the second
component records the migration write attempted; the source swallows any
write failure, so the returned document never depends on the write's
outcome); otherwise return the default. -/
def load_json {α : Type} (cur legacy : FileContent α) (default : α) : α × Option α :=
  match cur with
  | .valid d => (d, none)
  | .corrupt => (default, none)
  | .missing =>
      match legacy with
      | .valid d => (d, some d)
      | .corrupt => (default, none)
      | .missing => (default, none)

/-- `load_legacy_counter()`: return the first of (current counter file,
legacy counter file) that exists and parses as an integer; `0` when
neither does. -/
def load_legacy_counter (cur legacy : FileContent ℤ) : ℤ :=
  match cur with
  | .valid n => n
  | _ =>
      match legacy with
      | .valid n => n
      | _ => 0

/-- The startup seed in `FleshClicker.__init__`: when the freshly loaded
`flesh` equals zero and the legacy counter is positive, the counter value
becomes the initial `flesh`. -/
def init_flesh_seed (s : GameState) (curC legacyC : FileContent ℤ) : GameState :=
  if s.flesh = 0 then
    let legacy := load_legacy_counter curC legacyC
    if 0 < legacy then { s with flesh := (legacy : ℚ) } else s
  else s

/-- A state in which a single passive tick crosses the 100-flesh
threshold: 50 flesh on hand and one hundred Mk.I autoclickers. -/
def tickCrossState : GameState :=
  { flesh := 50, flesh_per_click := 1,
    upgrades_owned := [("auto_clicker_1", 100)], total_clicks := 0 }

/-- A pathological but representable state with a negative per-click
yield (a hand-edited save): the clamping setter makes a click deviate
from exact addition here. -/
def negYieldState : GameState :=
  { flesh := 5, flesh_per_click := -10, upgrades_owned := [], total_clicks := 0 }

/-- The spec scenario start state for a purchase: 10 flesh, nothing owned. -/
def buyScenarioState : GameState :=
  { flesh := 10, flesh_per_click := 1, upgrades_owned := [], total_clicks := 0 }

/-- The `bigger_clicks` catalog entry, named for use in concrete instances. -/
def biggerClicks : Upgrade :=
  { name := "Bigger Clicks", desc := "+1 flesh per click.",
    type := "click", category := "click",
    base_cost := 10, cost_mult := 1.15, fps := 0, fpc := 1 }

theorem dictGet_dictSet_self {α : Type} (m : List (String × α)) (k : String) (v : α) :
    dictGet (dictSet m k v) k = some v := by
  induction m with
  | nil => simp [dictGet, dictSet]
  | cons p rest ih =>
      obtain ⟨k', v'⟩ := p
      by_cases h : k' = k
      · simp [dictGet, dictSet, h]
      · simp [dictGet, dictSet, h, ih]

theorem dictGet_dictSet_ne {α : Type} (m : List (String × α)) (k k' : String) (v : α)
    (h : k' ≠ k) : dictGet (dictSet m k v) k' = dictGet m k' := by
  induction m with
  | nil =>
      have hne : k ≠ k' := Ne.symm h
      simp [dictGet, dictSet, hne]
  | cons p rest ih =>
      obtain ⟨k'', v''⟩ := p
      by_cases hk : k'' = k
      · subst hk
        have hne : k'' ≠ k' := fun hh => h hh.symm
        simp [dictGet, dictSet, hne]
      · simp only [dictSet, if_neg hk, dictGet]
        by_cases hk' : k'' = k'
        · simp [hk']
        · simp [hk', ih]

theorem unlock_preserves_unlocked (ach : List (String × Achievement)) (key k : String)
    (h : (dictGet ach k).map (fun x => x.unlocked) = some true) :
    (dictGet (unlock_achievement ach key).1 k).map (fun x => x.unlocked) = some true := by
  unfold unlock_achievement
  cases hk : dictGet ach key with
  | none => exact h
  | some a =>
      by_cases hu : a.unlocked
      · simp only [hu, if_true]
        exact h
      · simp only [hu, if_false, Bool.false_eq_true]
        by_cases hkk : k = key
        · subst hkk
          rw [dictGet_dictSet_self]
          simp
        · rw [dictGet_dictSet_ne _ _ _ _ hkk]
          exact h

theorem unlock_ite_preserves_unlocked (c : Prop) [Decidable c]
    (ach : List (String × Achievement)) (key k : String)
    (h : (dictGet ach k).map (fun x => x.unlocked) = some true) :
    (dictGet (if c then (unlock_achievement ach key).1 else ach) k).map
      (fun x => x.unlocked) = some true := by
  split
  · exact unlock_preserves_unlocked ach key k h
  · exact h

theorem on_click_preserves_unlocked (upgrades : List (String × Upgrade)) (s : GameState)
    (ach : List (String × Achievement)) (r : ℚ) (k : String)
    (h : (dictGet ach k).map (fun x => x.unlocked) = some true) :
    (dictGet (on_click upgrades s ach r).2 k).map (fun x => x.unlocked) = some true := by
  simp only [on_click]
  exact unlock_ite_preserves_unlocked _ _ _ _
    (unlock_ite_preserves_unlocked _ _ _ _
      (unlock_ite_preserves_unlocked _ _ _ _
        (unlock_ite_preserves_unlocked _ _ _ _
          (unlock_ite_preserves_unlocked _ _ _ _ h))))

theorem on_buy_preserves_unlocked (upgrades : List (String × Upgrade)) (s : GameState)
    (ach : List (String × Achievement)) (uid : String)
    (q : GameState × List (String × Achievement))
    (hq : on_buy_upgrade_clicked upgrades s ach uid = Except.ok q) (k : String)
    (h : (dictGet ach k).map (fun x => x.unlocked) = some true) :
    (dictGet q.2 k).map (fun x => x.unlocked) = some true := by
  unfold on_buy_upgrade_clicked at hq
  cases hd : dictGet upgrades uid with
  | none => rw [hd] at hq; cases hq
  | some u =>
      rw [hd] at hq
      dsimp only at hq
      split at hq
      · cases hq
        exact h
      · cases hq
        exact unlock_ite_preserves_unlocked _ _ _ _
          (unlock_ite_preserves_unlocked _ _ _ _ h)

theorem applyOp_preserves_unlocked (upgrades : List (String × Upgrade))
    (p : GameState × List (String × Achievement)) (op : Op) (k : String)
    (h : (dictGet p.2 k).map (fun x => x.unlocked) = some true) :
    (dictGet (applyOp upgrades p op).2 k).map (fun x => x.unlocked) = some true := by
  cases op with
  | click r => exact on_click_preserves_unlocked upgrades p.1 p.2 r k h
  | tick => exact h
  | buy uid =>
      simp only [applyOp]
      cases hb : on_buy_upgrade_clicked upgrades p.1 p.2 uid with
      | error e => exact h
      | ok q => exact on_buy_preserves_unlocked upgrades p.1 p.2 uid q hb k h

theorem applyOps_preserves_unlocked (upgrades : List (String × Upgrade)) (ops : List Op) :
    ∀ (p : GameState × List (String × Achievement)) (k : String),
      (dictGet p.2 k).map (fun x => x.unlocked) = some true →
      (dictGet (applyOps upgrades ops p).2 k).map (fun x => x.unlocked) = some true := by
  induction ops with
  | nil => intro p k h; exact h
  | cons op rest ih =>
      intro p k h
      exact ih (applyOp upgrades p op) k (applyOp_preserves_unlocked upgrades p op k h)

theorem setFlesh_flesh_nonneg (s : GameState) (v : ℚ) : 0 ≤ (setFlesh s v).1.flesh :=
  le_max_left 0 v

theorem on_click_flesh_nonneg (upgrades : List (String × Upgrade)) (s : GameState)
    (ach : List (String × Achievement)) (r : ℚ) :
    0 ≤ (on_click upgrades s ach r).1.flesh := by
  simp only [on_click, add_flesh, setFlesh]
  exact le_max_left _ _

theorem on_timer_tick_flesh_nonneg (upgrades : List (String × Upgrade)) (s : GameState)
    (h : 0 ≤ s.flesh) : 0 ≤ (on_timer_tick upgrades s).flesh := by
  simp only [on_timer_tick]
  split
  · exact le_max_left _ _
  · exact h

theorem on_buy_flesh_nonneg (upgrades : List (String × Upgrade)) (s : GameState)
    (ach : List (String × Achievement)) (uid : String)
    (q : GameState × List (String × Achievement))
    (hq : on_buy_upgrade_clicked upgrades s ach uid = Except.ok q)
    (h : 0 ≤ s.flesh) : 0 ≤ q.1.flesh := by
  unfold on_buy_upgrade_clicked at hq
  cases hd : dictGet upgrades uid with
  | none => rw [hd] at hq; cases hq
  | some u =>
      rw [hd] at hq
      dsimp only at hq
      split at hq
      · cases hq
        exact h
      · cases hq
        exact le_max_left _ _

theorem applyOp_flesh_nonneg (upgrades : List (String × Upgrade))
    (p : GameState × List (String × Achievement)) (op : Op)
    (h : 0 ≤ p.1.flesh) : 0 ≤ (applyOp upgrades p op).1.flesh := by
  cases op with
  | click r => exact on_click_flesh_nonneg upgrades p.1 p.2 r
  | tick => exact on_timer_tick_flesh_nonneg upgrades p.1 h
  | buy uid =>
      simp only [applyOp]
      cases hb : on_buy_upgrade_clicked upgrades p.1 p.2 uid with
      | error e => exact h
      | ok q => exact on_buy_flesh_nonneg upgrades p.1 p.2 uid q hb h

theorem applyOps_flesh_nonneg (upgrades : List (String × Upgrade)) (ops : List Op) :
    ∀ (p : GameState × List (String × Achievement)), 0 ≤ p.1.flesh →
      0 ≤ (applyOps upgrades ops p).1.flesh := by
  induction ops with
  | nil => intro p h; exact h
  | cons op rest ih =>
      intro p h
      exact ih (applyOp upgrades p op) (applyOp_flesh_nonneg upgrades p op h)

/-- Claim C1: for every upgrade id present in the catalog, a purchase with
current flesh strictly below the current cost (base_cost * cost_mult ^ ownedCount)
is a silent no-op leaving flesh, the owned count, and total_clicks (indeed
the whole state and achievement document) unchanged; otherwise it subtracts
exactly that cost from flesh and increments the owned count by exactly 1,
with no other field of the game state changed. -/
theorem C1_purchase_transaction (upgrades : List (String × Upgrade)) (s : GameState)
    (ach : List (String × Achievement)) (uid : String) (u : Upgrade)
    (hu : dictGet upgrades uid = some u) :
    (s.flesh < u.base_cost * u.cost_mult ^ get_upgrade_count s uid →
      on_buy_upgrade_clicked upgrades s ach uid = Except.ok (s, ach)) ∧
    (u.base_cost * u.cost_mult ^ get_upgrade_count s uid ≤ s.flesh →
      ∃ s' ach', on_buy_upgrade_clicked upgrades s ach uid = Except.ok (s', ach') ∧
        s'.flesh = s.flesh - u.base_cost * u.cost_mult ^ get_upgrade_count s uid ∧
        get_upgrade_count s' uid = get_upgrade_count s uid + 1 ∧
        s'.total_clicks = s.total_clicks ∧
        s'.flesh_per_click = s.flesh_per_click ∧
        ∀ k, k ≠ uid → get_upgrade_count s' k = get_upgrade_count s k) := by
  constructor
  · intro hlt
    unfold on_buy_upgrade_clicked
    rw [hu]
    dsimp only
    rw [if_pos hlt]
  · intro hge
    have hnlt : ¬ s.flesh < u.base_cost * u.cost_mult ^ get_upgrade_count s uid :=
      not_lt.mpr hge
    unfold on_buy_upgrade_clicked
    rw [hu]
    dsimp only
    rw [if_neg hnlt]
    refine ⟨_, _, rfl, ?_, ?_, ?_, ?_, ?_⟩
    · simp only [set_upgrade_count, add_flesh, setFlesh]
      rw [max_eq_right (by linarith)]
      ring
    · simp only [set_upgrade_count, add_flesh, setFlesh, get_upgrade_count]
      rw [dictGet_dictSet_self]
      rfl
    · rfl
    · rfl
    · intro k hk
      simp only [set_upgrade_count, add_flesh, setFlesh, get_upgrade_count]
      rw [dictGet_dictSet_ne _ _ _ _ hk]

/-- Witness for C1 at the spec's purchase scenario: flesh = 10, nothing
owned, buying `bigger_clicks` (base_cost 10, cost 10 * 1.15 ^ 0 = 10). -/
theorem C1_purchase_transaction_witness :
    ∃ s' ach',
      on_buy_upgrade_clicked BASE_UPGRADES buyScenarioState DEFAULT_ACHIEVEMENTS
        "bigger_clicks" = Except.ok (s', ach') ∧
      s'.flesh = buyScenarioState.flesh -
        biggerClicks.base_cost * biggerClicks.cost_mult ^
          get_upgrade_count buyScenarioState "bigger_clicks" ∧
      get_upgrade_count s' "bigger_clicks" =
        get_upgrade_count buyScenarioState "bigger_clicks" + 1 ∧
      s'.total_clicks = buyScenarioState.total_clicks ∧
      s'.flesh_per_click = buyScenarioState.flesh_per_click ∧
      ∀ k, k ≠ "bigger_clicks" →
        get_upgrade_count s' k = get_upgrade_count buyScenarioState k :=
  (C1_purchase_transaction BASE_UPGRADES buyScenarioState DEFAULT_ACHIEVEMENTS
      "bigger_clicks" biggerClicks rfl).2
    (by norm_num +decide [get_upgrade_count, dictGet, buyScenarioState, biggerClicks])

/-- Claim C2: every write through the `flesh` property setter is clamped to
be ≥ 0, and from any state with non-negative flesh (in particular every
state the game itself writes), flesh stays non-negative under every
sequence of click, passive-tick, and purchase operations. -/
theorem C2_flesh_never_negative :
    (∀ (s : GameState) (v : ℚ), 0 ≤ (setFlesh s v).1.flesh) ∧
    ∀ (upgrades : List (String × Upgrade)) (ach : List (String × Achievement))
      (s : GameState) (ops : List Op),
      0 ≤ s.flesh → 0 ≤ (applyOps upgrades ops (s, ach)).1.flesh :=
  ⟨setFlesh_flesh_nonneg,
   fun upgrades ach s ops h => applyOps_flesh_nonneg upgrades ops (s, ach) h⟩

/-- Witness for C2: a click, a tick, and a purchase from the default state. -/
theorem C2_flesh_never_negative_witness :
    0 ≤ (applyOps BASE_UPGRADES [Op.click (1/2), Op.tick, Op.buy "bigger_clicks"]
      (DEFAULT_STATE, DEFAULT_ACHIEVEMENTS)).1.flesh :=
  C2_flesh_never_negative.2 BASE_UPGRADES DEFAULT_ACHIEVEMENTS DEFAULT_STATE
    [Op.click (1/2), Op.tick, Op.buy "bigger_clicks"] (by norm_num [DEFAULT_STATE])

/-- Claim C3: for a catalog entry with base_cost > 0 and cost_mult > 1,
`get_upgrade_cost` returns base_cost * cost_mult ^ ownedCount, and the cost
strictly increases with the owned count. -/
theorem C3_upgrade_cost_curve (upgrades : List (String × Upgrade)) (uid : String)
    (u : Upgrade) (owned : Nat) (hu : dictGet upgrades uid = some u)
    (hbase : 0 < u.base_cost) (hmult : 1 < u.cost_mult) :
    get_upgrade_cost upgrades uid owned = some (u.base_cost * u.cost_mult ^ owned) ∧
    u.base_cost * u.cost_mult ^ owned < u.base_cost * u.cost_mult ^ (owned + 1) := by
  constructor
  · unfold get_upgrade_cost
    rw [hu]
    rfl
  · have hpos : (0 : ℚ) < u.cost_mult ^ owned := pow_pos (lt_trans one_pos hmult) owned
    have h1 : u.cost_mult ^ owned < u.cost_mult ^ (owned + 1) := by
      have h2 := mul_lt_mul_of_pos_left hmult hpos
      simpa [pow_succ] using h2
    exact mul_lt_mul_of_pos_left h1 hbase

/-- Witness for C3 at `bigger_clicks` with owned count 0. -/
theorem C3_upgrade_cost_curve_witness :
    get_upgrade_cost BASE_UPGRADES "bigger_clicks" 0 =
      some (biggerClicks.base_cost * biggerClicks.cost_mult ^ 0) ∧
    biggerClicks.base_cost * biggerClicks.cost_mult ^ 0 <
      biggerClicks.base_cost * biggerClicks.cost_mult ^ (0 + 1) :=
  C3_upgrade_cost_curve BASE_UPGRADES "bigger_clicks" biggerClicks 0 rfl
    (by norm_num [biggerClicks]) (by norm_num [biggerClicks])

/-- Counterexample to claim C4 as stated: from a representable state with a
negative per-click yield (flesh = 5, flesh_per_click = -10, nothing owned),
a non-crit click does not add the yield (-10) to flesh: the clamping setter
stores 0, not 5 + (-10) = -5. -/
theorem C4_click_adds_yield_counterexample :
    effective_fpc BASE_UPGRADES negYieldState = -10 ∧
    (on_click BASE_UPGRADES negYieldState DEFAULT_ACHIEVEMENTS (1/2)).1.flesh = 0 ∧
    (on_click BASE_UPGRADES negYieldState DEFAULT_ACHIEVEMENTS (1/2)).1.flesh ≠
      negYieldState.flesh + effective_fpc BASE_UPGRADES negYieldState := by
  refine ⟨?_, ?_, ?_⟩ <;>
    norm_num +decide [on_click, add_flesh, setFlesh, effective_fpc, compute_extra_fpc,
      get_upgrade_count, dictGet, BASE_UPGRADES, negYieldState]

/-- Claim C4 (amended): for every game state and roll r in [0,1), the click
sets flesh to max(0, flesh + yield) — exact addition whenever
flesh + yield ≥ 0 — where the yield is effective_fpc (fleshPerClick plus the
click-upgrade sum), doubled exactly when r < 0.05 * ownedCount(crit_click);
total_clicks is incremented by exactly 1 and no other game-state field
changes; and the spec scenario holds: from flesh = 0, fleshPerClick = 1,
nothing owned, a single non-crit click yields flesh = 1, totalClicks = 1,
and unlocks first_click. -/
theorem C4_click_transaction (upgrades : List (String × Upgrade)) (s : GameState)
    (ach : List (String × Achievement)) (r : ℚ) (h0 : 0 ≤ r) (_h1 : r < 1) :
    (on_click upgrades s ach r).1.flesh =
      max 0 (s.flesh +
        (if r < 5 / 100 * (get_upgrade_count s "crit_click" : ℚ)
         then effective_fpc upgrades s * 2 else effective_fpc upgrades s)) ∧
    (on_click upgrades s ach r).1.total_clicks = s.total_clicks + 1 ∧
    (on_click upgrades s ach r).1.flesh_per_click = s.flesh_per_click ∧
    (on_click upgrades s ach r).1.upgrades_owned = s.upgrades_owned ∧
    (on_click BASE_UPGRADES DEFAULT_STATE DEFAULT_ACHIEVEMENTS r).1.flesh = 1 ∧
    (on_click BASE_UPGRADES DEFAULT_STATE DEFAULT_ACHIEVEMENTS r).1.total_clicks = 1 ∧
    (dictGet (on_click BASE_UPGRADES DEFAULT_STATE DEFAULT_ACHIEVEMENTS r).2
      "first_click").map (fun x => x.unlocked) = some true := by
  have hchance : (if 0 < get_upgrade_count s "crit_click"
      then (5 / 100 : ℚ) * (get_upgrade_count s "crit_click" : ℚ) else 0) =
      5 / 100 * (get_upgrade_count s "crit_click" : ℚ) := by
    cases hc : get_upgrade_count s "crit_click" with
    | zero => simp
    | succ n => simp
  have hr0 : ¬ r < 0 := not_lt.mpr h0
  refine ⟨?_, ?_, ?_, ?_, ?_, ?_, ?_⟩
  · simp only [on_click, add_flesh, setFlesh, hchance]
  · simp only [on_click, add_flesh, setFlesh]
  · simp only [on_click, add_flesh, setFlesh]
  · simp only [on_click, add_flesh, setFlesh]
  · norm_num +decide [on_click, add_flesh, setFlesh, effective_fpc, compute_extra_fpc,
      get_upgrade_count, dictGet, BASE_UPGRADES, DEFAULT_STATE, hr0]
  · norm_num +decide [on_click, add_flesh, setFlesh, get_upgrade_count, dictGet,
      DEFAULT_STATE, hr0]
  · norm_num +decide [on_click, add_flesh, setFlesh, unlock_achievement, dictGet, dictSet,
      effective_fpc, compute_extra_fpc, get_upgrade_count, BASE_UPGRADES, DEFAULT_STATE,
      DEFAULT_ACHIEVEMENTS, hr0]

/-- Witness for C4 (amended) at the spec scenario with the non-crit roll 1/2. -/
theorem C4_click_transaction_witness :
    (on_click BASE_UPGRADES DEFAULT_STATE DEFAULT_ACHIEVEMENTS (1/2)).1.flesh = 1 ∧
    (on_click BASE_UPGRADES DEFAULT_STATE DEFAULT_ACHIEVEMENTS (1/2)).1.total_clicks = 1 ∧
    (dictGet (on_click BASE_UPGRADES DEFAULT_STATE DEFAULT_ACHIEVEMENTS (1/2)).2
      "first_click").map (fun x => x.unlocked) = some true :=
  ⟨(C4_click_transaction BASE_UPGRADES DEFAULT_STATE DEFAULT_ACHIEVEMENTS (1/2)
      (by norm_num) (by norm_num)).2.2.2.2.1,
   (C4_click_transaction BASE_UPGRADES DEFAULT_STATE DEFAULT_ACHIEVEMENTS (1/2)
      (by norm_num) (by norm_num)).2.2.2.2.2.1,
   (C4_click_transaction BASE_UPGRADES DEFAULT_STATE DEFAULT_ACHIEVEMENTS (1/2)
      (by norm_num) (by norm_num)).2.2.2.2.2.2⟩

/-- Counterexample to claim C5 as stated: a passive tick that crosses the
100-flesh threshold (50 flesh plus one hundred Mk.I autoclickers, +100 per
tick) leaves `hundred_flesh` locked: the tick handler performs no
achievement re-check at all. -/
theorem C5_tick_counterexample :
    (applyOp BASE_UPGRADES (tickCrossState, DEFAULT_ACHIEVEMENTS) Op.tick).1.flesh = 150 ∧
    (100 : ℚ) ≤ (applyOp BASE_UPGRADES (tickCrossState, DEFAULT_ACHIEVEMENTS) Op.tick).1.flesh ∧
    (dictGet (applyOp BASE_UPGRADES (tickCrossState, DEFAULT_ACHIEVEMENTS) Op.tick).2
      "hundred_flesh").map (fun x => x.unlocked) = some false := by
  refine ⟨?_, ?_, ?_⟩ <;>
    norm_num +decide [applyOp, on_timer_tick, add_flesh, setFlesh, compute_fps,
      get_upgrade_count, dictGet, BASE_UPGRADES, tickCrossState, DEFAULT_ACHIEVEMENTS]

/-- Claim C5 (amended): from a state with non-negative flesh, a passive
tick adds exactly passiveYieldPerTick (= compute_fps, the auto-upgrade sum)
to flesh when that sum is positive and leaves the state unchanged
otherwise; total_clicks is unchanged (ticks do not count as clicks); and
the achievement document is neither consulted nor modified by a tick — the
currency-threshold achievements are only evaluated on clicks. -/
theorem C5_passive_tick (upgrades : List (String × Upgrade)) (s : GameState)
    (ach : List (String × Achievement)) (h : 0 ≤ s.flesh) :
    (0 < compute_fps upgrades s →
      (on_timer_tick upgrades s).flesh = s.flesh + compute_fps upgrades s) ∧
    (¬ 0 < compute_fps upgrades s → on_timer_tick upgrades s = s) ∧
    (on_timer_tick upgrades s).total_clicks = s.total_clicks ∧
    applyOp upgrades (s, ach) Op.tick = (on_timer_tick upgrades s, ach) := by
  refine ⟨?_, ?_, ?_, rfl⟩
  · intro hf
    simp only [on_timer_tick, add_flesh, setFlesh, if_pos hf]
    exact max_eq_right (by linarith)
  · intro hf
    simp only [on_timer_tick, add_flesh, setFlesh, if_neg hf]
  · simp only [on_timer_tick, add_flesh, setFlesh]
    split <;> rfl

/-- Witness for C5 (amended): the tick at `tickCrossState` adds exactly the
passive yield. -/
theorem C5_passive_tick_witness :
    (on_timer_tick BASE_UPGRADES tickCrossState).flesh =
      tickCrossState.flesh + compute_fps BASE_UPGRADES tickCrossState :=
  (C5_passive_tick BASE_UPGRADES tickCrossState DEFAULT_ACHIEVEMENTS
      (by norm_num [tickCrossState])).1
    (by norm_num +decide [compute_fps, get_upgrade_count, dictGet, BASE_UPGRADES,
      tickCrossState])

/-- Claim C6: for every document kind, load returns the parsed current-path
content when the current path exists and parses; the in-memory default when
the current path exists but fails to parse; the parsed legacy-path content
(returned unchanged, with a best-effort migration write to the current path
recorded in the second component — the source swallows any write failure,
so the returned document never depends on the write's outcome) when the
current path is absent but the legacy path exists and parses; and the
default when neither path is usable. -/
theorem C6_load_json_resolution {α : Type} (default d : α) :
    (∀ legacy : FileContent α, load_json (FileContent.valid d) legacy default = (d, none)) ∧
    (∀ legacy : FileContent α, load_json FileContent.corrupt legacy default = (default, none)) ∧
    load_json FileContent.missing (FileContent.valid d) default = (d, some d) ∧
    load_json FileContent.missing FileContent.corrupt default = (default, none) ∧
    load_json FileContent.missing FileContent.missing default = (default, none) :=
  ⟨fun _ => rfl, fun _ => rfl, rfl, rfl, rfl⟩

/-- Claim C7: unlock is idempotent and one-way: a no-op when the id is
unknown or already unlocked; otherwise it sets unlocked = true with exactly
one persisted write; a second unlock of the same id performs zero further
writes; and no core operation ever resets an unlocked achievement to
false. -/
theorem C7_unlock_idempotent_one_way (ach : List (String × Achievement)) (key : String) :
    (dictGet ach key = none → unlock_achievement ach key = (ach, 0)) ∧
    (∀ a, dictGet ach key = some a → a.unlocked = true →
      unlock_achievement ach key = (ach, 0)) ∧
    (∀ a, dictGet ach key = some a → a.unlocked = false →
      (dictGet (unlock_achievement ach key).1 key).map (fun x => x.unlocked) = some true ∧
      (unlock_achievement ach key).2 = 1) ∧
    unlock_achievement (unlock_achievement ach key).1 key =
      ((unlock_achievement ach key).1, 0) ∧
    ∀ (upgrades : List (String × Upgrade)) (s : GameState) (ops : List Op) (k : String),
      (dictGet ach k).map (fun x => x.unlocked) = some true →
      (dictGet (applyOps upgrades ops (s, ach)).2 k).map (fun x => x.unlocked) = some true := by
  refine ⟨?_, ?_, ?_, ?_, ?_⟩
  · intro hk
    unfold unlock_achievement
    rw [hk]
  · intro a hk hu
    unfold unlock_achievement
    rw [hk]
    simp [hu]
  · intro a hk hu
    have h1 : unlock_achievement ach key =
        (dictSet ach key { a with unlocked := true }, 1) := by
      unfold unlock_achievement
      rw [hk]
      simp [hu]
    rw [h1]
    constructor
    · rw [dictGet_dictSet_self]
      rfl
    · rfl
  · cases hk : dictGet ach key with
    | none =>
        have h1 : unlock_achievement ach key = (ach, 0) := by
          unfold unlock_achievement
          rw [hk]
        rw [h1]
        unfold unlock_achievement
        rw [hk]
    | some a =>
        by_cases hu : a.unlocked
        · have h1 : unlock_achievement ach key = (ach, 0) := by
            unfold unlock_achievement
            rw [hk]
            simp [hu]
          rw [h1]
          unfold unlock_achievement
          rw [hk]
          simp [hu]
        · have h1 : unlock_achievement ach key =
              (dictSet ach key { a with unlocked := true }, 1) := by
            unfold unlock_achievement
            rw [hk]
            simp [hu]
          rw [h1]
          unfold unlock_achievement
          rw [dictGet_dictSet_self]
          simp
  · intro upgrades s ops k h
    exact applyOps_preserves_unlocked upgrades ops (s, ach) k h

/-- Witness for C7: unlocking `first_click` in the default achievement
document sets it to unlocked with exactly one persisted write. -/
theorem C7_unlock_idempotent_one_way_witness :
    (dictGet (unlock_achievement DEFAULT_ACHIEVEMENTS "first_click").1 "first_click").map
      (fun x => x.unlocked) = some true ∧
    (unlock_achievement DEFAULT_ACHIEVEMENTS "first_click").2 = 1 :=
  (C7_unlock_idempotent_one_way DEFAULT_ACHIEVEMENTS "first_click").2.2.1
    { name := "First Click", desc := "Click the flesh at least once.", unlocked := false }
    rfl rfl

/-- Counterexample to claim C8 as stated: with loaded flesh exactly zero
and the current-location counter file parsing to the non-zero value -5,
the code leaves flesh at 0 — the seed requires a strictly positive
counter, not merely a non-zero one. -/
theorem C8_legacy_seed_counterexample :
    DEFAULT_STATE.flesh = 0 ∧
    load_legacy_counter (FileContent.valid (-5)) FileContent.missing = -5 ∧
    (init_flesh_seed DEFAULT_STATE (FileContent.valid (-5)) FileContent.missing).flesh = 0 ∧
    (init_flesh_seed DEFAULT_STATE (FileContent.valid (-5)) FileContent.missing).flesh ≠
      ((-5 : ℤ) : ℚ) := by
  refine ⟨rfl, rfl, ?_, ?_⟩ <;>
    norm_num +decide [init_flesh_seed, load_legacy_counter, DEFAULT_STATE]

/-- Claim C8 (amended): at startup, if the freshly loaded flesh is exactly
zero and the legacy flat counter (the first of current-location then
legacy-location counter file that exists and parses) is strictly positive,
that counter value becomes the initial flesh; otherwise (loaded flesh
non-zero, or counter not strictly positive) flesh is left as loaded. -/
theorem C8_legacy_counter_seed (s : GameState) (curC legacyC : FileContent ℤ) :
    (s.flesh = 0 → 0 < load_legacy_counter curC legacyC →
      init_flesh_seed s curC legacyC =
        { s with flesh := (load_legacy_counter curC legacyC : ℚ) }) ∧
    (s.flesh = 0 → ¬ 0 < load_legacy_counter curC legacyC →
      init_flesh_seed s curC legacyC = s) ∧
    (s.flesh ≠ 0 → init_flesh_seed s curC legacyC = s) ∧
    (∀ n : ℤ, load_legacy_counter (FileContent.valid n) legacyC = n) ∧
    (∀ n : ℤ, load_legacy_counter FileContent.missing (FileContent.valid n) = n) ∧
    (∀ n : ℤ, load_legacy_counter FileContent.corrupt (FileContent.valid n) = n) ∧
    load_legacy_counter FileContent.missing FileContent.missing = 0 ∧
    load_legacy_counter FileContent.corrupt FileContent.corrupt = 0 := by
  refine ⟨?_, ?_, ?_, fun n => rfl, fun n => rfl, fun n => rfl, rfl, rfl⟩
  · intro h0 hpos
    simp only [init_flesh_seed]
    rw [if_pos h0, if_pos hpos]
  · intro h0 hneg
    simp only [init_flesh_seed]
    rw [if_pos h0, if_neg hneg]
  · intro h0
    simp only [init_flesh_seed]
    rw [if_neg h0]

/-- Witness for C8 (amended): loaded flesh 0 and a current counter file
holding 42 seed the initial flesh to 42. -/
theorem C8_legacy_counter_seed_witness :
    init_flesh_seed DEFAULT_STATE (FileContent.valid 42) FileContent.missing =
      { DEFAULT_STATE with
          flesh := (load_legacy_counter (FileContent.valid 42) FileContent.missing : ℚ) } :=
  (C8_legacy_counter_seed DEFAULT_STATE (FileContent.valid 42) FileContent.missing).1
    rfl (by decide)

/-- Counterexample to claim C9 as stated: a purchase invoked with an id
absent from the upgrade catalog raises a KeyError from the cost lookup
(`self.upgrades[uid]`) instead of degrading to a silent no-op. -/
theorem C9_no_crash_counterexample :
    on_buy_upgrade_clicked BASE_UPGRADES DEFAULT_STATE DEFAULT_ACHIEVEMENTS "nonexistent" =
      Except.error "KeyError: nonexistent" := by
  norm_num +decide [on_buy_upgrade_clicked, get_upgrade_count, dictGet, BASE_UPGRADES]

/-- Claim C9 (amended): the purchase handler's failure paths leave the game
state unchanged — insufficient funds is a silent no-op, and an id absent
from the catalog raises a KeyError before any mutation (so the state is
unchanged when the exception propagates out of the handler) — but the
absent-id case does raise an unhandled error rather than returning
normally; with an id present in the catalog the handler never errors. -/
theorem C9_failure_paths (upgrades : List (String × Upgrade)) (s : GameState)
    (ach : List (String × Achievement)) (uid : String) :
    (dictGet upgrades uid = none →
      on_buy_upgrade_clicked upgrades s ach uid = Except.error ("KeyError: " ++ uid) ∧
      applyOp upgrades (s, ach) (Op.buy uid) = (s, ach)) ∧
    (∀ u, dictGet upgrades uid = some u →
      ∃ q, on_buy_upgrade_clicked upgrades s ach uid = Except.ok q) ∧
    (∀ u, dictGet upgrades uid = some u →
      s.flesh < u.base_cost * u.cost_mult ^ get_upgrade_count s uid →
      on_buy_upgrade_clicked upgrades s ach uid = Except.ok (s, ach)) := by
  refine ⟨?_, ?_, ?_⟩
  · intro hk
    have he : on_buy_upgrade_clicked upgrades s ach uid =
        Except.error ("KeyError: " ++ uid) := by
      unfold on_buy_upgrade_clicked
      rw [hk]
    refine ⟨he, ?_⟩
    simp only [applyOp, he]
  · intro u hu
    unfold on_buy_upgrade_clicked
    rw [hu]
    dsimp only
    split
    · exact ⟨_, rfl⟩
    · exact ⟨_, rfl⟩
  · intro u hu hlt
    unfold on_buy_upgrade_clicked
    rw [hu]
    dsimp only
    rw [if_pos hlt]

/-- Witness for C9 (amended): buying an id no mod ever registered errors
with a KeyError and leaves the state pair unchanged. -/
theorem C9_failure_paths_witness :
    on_buy_upgrade_clicked BASE_UPGRADES DEFAULT_STATE DEFAULT_ACHIEVEMENTS
      "unknown_mod_upgrade" = Except.error ("KeyError: " ++ "unknown_mod_upgrade") ∧
    applyOp BASE_UPGRADES (DEFAULT_STATE, DEFAULT_ACHIEVEMENTS)
      (Op.buy "unknown_mod_upgrade") = (DEFAULT_STATE, DEFAULT_ACHIEVEMENTS) :=
  (C9_failure_paths BASE_UPGRADES DEFAULT_STATE DEFAULT_ACHIEVEMENTS
    "unknown_mod_upgrade").1 rfl

/-- Claim C10: every write through the `flesh` setter mirrors the clamped
value into the flat legacy counter as `int(flesh)`; since the clamped value
is ≥ 0, truncation toward zero coincides with the integer floor, and
whenever the stored flesh has a fractional part the mirrored counter
differs from the exact stored flesh. -/
theorem C10_counter_mirror (s : GameState) (v : ℚ) :
    (setFlesh s v).2 = save_legacy_counter ((setFlesh s v).1.flesh) ∧
    (setFlesh s v).2 = ⌊(setFlesh s v).1.flesh⌋ ∧
    ((setFlesh s v).1.flesh ≠ (⌊(setFlesh s v).1.flesh⌋ : ℚ) →
      ((setFlesh s v).2 : ℚ) ≠ (setFlesh s v).1.flesh) := by
  have hfl : (setFlesh s v).1.flesh = max 0 v := rfl
  have h2 : (setFlesh s v).2 = ⌊max 0 v⌋ := by
    show save_legacy_counter (max 0 v) = ⌊max 0 v⌋
    unfold save_legacy_counter pyInt
    rw [if_pos (le_max_left 0 v)]
  refine ⟨rfl, ?_, ?_⟩
  · rw [h2, hfl]
  · intro hne
    rw [h2, hfl]
    rw [hfl] at hne
    exact fun heq => hne heq.symm

/-- Witness for C10: storing 3/2 writes the counter 1 = floor(3/2), which
differs from the stored flesh 3/2. -/
theorem C10_counter_mirror_witness :
    ((setFlesh DEFAULT_STATE (3/2)).2 : ℚ) ≠ (setFlesh DEFAULT_STATE (3/2)).1.flesh :=
  (C10_counter_mirror DEFAULT_STATE (3/2)).2.2
    (by norm_num [setFlesh, DEFAULT_STATE])

end FleshFetch
